import Mathlib

/-!
Verification of the bond-trading service core (`soa`-style keyed services):
shallow embedding of the concrete service classes found in the repository
(`positionservice`, `riskservice`, `marketdataservice`, `tradebookingservice`,
`streamingservice`, `inquiryservice`, `executionservice`, `pricingservice`,
`historicaldataservice`) and proofs about their aggregation, fan-out, lookup
and purity behaviour.

Modelling conventions:
* `std::map<string, V>` / `std::unordered_map<string, V>` become association
  lists `List (String × V)` with `lookupKey` (`find`) and `insertKey`
  (`operator[] = v`, i.e. overwrite-or-append); `mapIndexDefault` models a
  read through `operator[]`, which default-inserts on a missing key.
* C++ `long` becomes `Int`; `double` becomes `ℚ` (the claims under study are
  about exact arithmetic identities and control flow, not rounding).
* `throw` becomes `Except.error`; `std::vector<Order>::front()` on an empty
  vector (an out-of-range access, undefined behaviour) is made observable as
  a distinguished `outOfRange` outcome.
* Listener fan-out: listeners are identified by their registration index and
  each mutation returns the list of `(listener, callback)` events it fires,
  in the order the C++ `for` loop fires them.
-/

namespace SOA

/-! ### Association-list maps (std::map keyed on String) -/

def lookupKey {V : Type} : List (String × V) → String → Option V
  | [], _ => none
  | (k, v) :: rest, key => if k = key then some v else lookupKey rest key

def insertKey {V : Type} : List (String × V) → String → V → List (String × V)
  | [], key, val => [(key, val)]
  | (k, v) :: rest, key, val =>
    if k = key then (key, val) :: rest else (k, v) :: insertKey rest key val

theorem lookupKey_insertKey_self {V : Type} (m : List (String × V)) (k : String) (v : V) :
    lookupKey (insertKey m k v) k = some v := by
  induction m with
  | nil => simp [insertKey, lookupKey]
  | cons hd tl ih =>
    obtain ⟨k', v'⟩ := hd
    by_cases h : k' = k
    · simp [insertKey, h, lookupKey]
    · simp [insertKey, h, lookupKey, ih]

theorem lookupKey_insertKey_ne {V : Type} (m : List (String × V)) (k k' : String) (v : V)
    (h : k' ≠ k) : lookupKey (insertKey m k v) k' = lookupKey m k' := by
  induction m with
  | nil =>
    simp only [insertKey, lookupKey]
    rw [if_neg fun hc => h hc.symm]
  | cons hd tl ih =>
    obtain ⟨k₀, v₀⟩ := hd
    simp only [insertKey]
    by_cases h₀ : k₀ = k
    · rw [if_pos h₀]
      simp only [lookupKey]
      rw [if_neg fun hc => h hc.symm, if_neg fun hc : k₀ = k' => h (hc.symm.trans h₀)]
    · rw [if_neg h₀]
      simp only [lookupKey]
      by_cases h₁ : k₀ = k'
      · rw [if_pos h₁, if_pos h₁]
      · rw [if_neg h₁, if_neg h₁, ih]

theorem lookupKey_insertKey_isSome {V : Type} (m : List (String × V)) (k k' : String) (v : V)
    (h : (lookupKey m k').isSome) : (lookupKey (insertKey m k v) k').isSome := by
  by_cases hk : k' = k
  · subst hk; simp [lookupKey_insertKey_self]
  · rwa [lookupKey_insertKey_ne m k k' v hk]

/-! ### Shared entity vocabulary -/

/-- Opaque product: the core only relies on a stable string identifier. -/
structure Product where
  productId : String
deriving DecidableEq

/-- Trade sides (`enum Side { BUY, SELL }`). -/
inductive Side
  | BUY
  | SELL
deriving DecidableEq

/-- Listener callbacks fired by the services (`ProcessAdd` / `ProcessUpdate`). -/
inductive CallbackKind
  | processAdd
  | processUpdate
deriving DecidableEq

/-- Errors surfaced by the services: `runtime_error` not-found throws, and the
`std::out_of_range` thrown by `std::map::at`. -/
inductive ServiceError
  | notFound (msg : String)
  | outOfRange
deriving DecidableEq

/-- The common `GetData` body: `find`, return on hit, `throw runtime_error` on miss. -/
def findGetData {V : Type} (store : List (String × V)) (key msg : String) :
    Except ServiceError V :=
  match lookupKey store key with
  | some v => Except.ok v
  | none => Except.error (ServiceError.notFound (msg ++ key))

/-- `operator[]` read on `std::map`: default-inserts when the key is absent. -/
def mapIndexDefault {V : Type} (store : List (String × V)) (key : String) (dflt : V) :
    V × List (String × V) :=
  match lookupKey store key with
  | some v => (v, store)
  | none => (dflt, insertKey store key dflt)

/-! ### Trade (tradebookingservice.hpp) -/

/-- `Trade<T>`: product, tradeId, price, book, quantity, side. -/
structure Trade where
  product : Product
  tradeId : String
  price : ℚ
  book : String
  quantity : Int
  side : Side
deriving DecidableEq

/-! ### Position (positionservice.hpp) -/

/-- `Position<T>`: product plus `map<string, long> positions`. -/
structure Position where
  product : Product
  positions : List (String × Int)
deriving DecidableEq

/-- `positions[book] += quantity` (\x7boperator[] creates the entry at 0 first\x7d). -/
def bumpBook : List (String × Int) → String → Int → List (String × Int)
  | [], book, q => [(book, q)]
  | (b, v) :: rest, book, q =>
    if b = book then (b, v + q) :: rest else (b, v) :: bumpBook rest book q

/-- `Position::UpdatePosition`. -/
def Position.UpdatePosition (pos : Position) (book : String) (quantity : Int) : Position :=
  { pos with positions := bumpBook pos.positions book quantity }

/-- `Position::GetAggregatePosition`: sum of all per-book quantities. -/
def Position.GetAggregatePosition (pos : Position) : Int :=
  (pos.positions.map Prod.snd).sum

/-- `Position::GetPosition(book)`: `positions[book]` (0 if absent, as `operator[]`). -/
def Position.GetPosition (pos : Position) (book : String) : Int :=
  (lookupKey pos.positions book).getD 0

/-- `PositionService<T>` state: `dataStore` and the registered listeners. -/
structure PositionServiceState where
  dataStore : List (String × Position)
  listeners : List Nat
deriving DecidableEq

def emptyPositionService : PositionServiceState := ⟨[], []⟩

/-- `PositionService::AddTrade`: create the position if absent, fold the signed
quantity into the trade's book, then notify all listeners via `ProcessUpdate`. -/
def PositionService.AddTrade (s : PositionServiceState) (t : Trade) :
    PositionServiceState × List (Nat × CallbackKind) :=
  let productId := t.product.productId
  let store0 :=
    match lookupKey s.dataStore productId with
    | none => insertKey s.dataStore productId ⟨t.product, []⟩
    | some _ => s.dataStore
  let position := (lookupKey store0 productId).getD ⟨t.product, []⟩
  let position' := position.UpdatePosition t.book
      (if t.side = Side.BUY then t.quantity else -t.quantity)
  let store1 := insertKey store0 productId position'
  (⟨store1, s.listeners⟩, s.listeners.map (fun l => (l, CallbackKind.processUpdate)))

/-- `PositionService::GetData`. -/
def PositionService.GetData (s : PositionServiceState) (productId : String) :
    Except ServiceError Position :=
  findGetData s.dataStore productId "Position not found for product ID: "

/-- Ingest a sequence of trades in order. -/
def ingestTrades (s : PositionServiceState) (trades : List Trade) : PositionServiceState :=
  trades.foldl (fun st t => (PositionService.AddTrade st t).1) s

/-- Signed delta of one trade: `+quantity` for BUY, `-quantity` for SELL. -/
def Trade.delta (t : Trade) : Int :=
  if t.side = Side.BUY then t.quantity else -t.quantity

/-- Signed sum of the quantities of all trades on product `P`. -/
def signedSum (trades : List Trade) (P : String) : Int :=
  ((trades.filter (fun t => t.product.productId == P)).map Trade.delta).sum

/-- Aggregate position seen by the service for product `P` (0 when never traded). -/
def aggregateOf (s : PositionServiceState) (P : String) : Int :=
  match lookupKey s.dataStore P with
  | none => 0
  | some pos => pos.GetAggregatePosition

theorem sum_bumpBook (m : List (String × Int)) (b : String) (q : Int) :
    ((bumpBook m b q).map Prod.snd).sum = (m.map Prod.snd).sum + q := by
  induction m with
  | nil => simp [bumpBook]
  | cons hd tl ih =>
    obtain ⟨b₀, v₀⟩ := hd
    by_cases h : b₀ = b
    · simp [bumpBook, h]; ring
    · simp [bumpBook, h, ih]; ring

theorem agg_UpdatePosition (pos : Position) (b : String) (q : Int) :
    (pos.UpdatePosition b q).GetAggregatePosition = pos.GetAggregatePosition + q := by
  simp [Position.UpdatePosition, Position.GetAggregatePosition, sum_bumpBook]

theorem aggregateOf_AddTrade (s : PositionServiceState) (t : Trade) (P : String) :
    aggregateOf (PositionService.AddTrade s t).1 P =
      aggregateOf s P + (if t.product.productId = P then t.delta else 0) := by
  by_cases hP : t.product.productId = P
  · subst hP
    cases hfind : lookupKey s.dataStore t.product.productId with
    | none =>
      simp [PositionService.AddTrade, aggregateOf, hfind, lookupKey_insertKey_self,
        Position.UpdatePosition, bumpBook, Position.GetAggregatePosition, Trade.delta]
    | some pos =>
      simp [PositionService.AddTrade, aggregateOf, hfind, lookupKey_insertKey_self,
        agg_UpdatePosition, Trade.delta]
  · cases hfind : lookupKey s.dataStore t.product.productId with
    | none =>
      simp only [PositionService.AddTrade, aggregateOf, hfind, if_neg hP, add_zero]
      rw [lookupKey_insertKey_ne _ _ _ _ fun h => hP h.symm,
        lookupKey_insertKey_ne _ _ _ _ fun h => hP h.symm]
    | some pos =>
      simp only [PositionService.AddTrade, aggregateOf, hfind, if_neg hP, add_zero]
      rw [lookupKey_insertKey_ne _ _ _ _ fun h => hP h.symm]

theorem lookup_AddTrade_isSome (s : PositionServiceState) (t : Trade) (P : String)
    (h : (lookupKey s.dataStore P).isSome ∨ t.product.productId = P) :
    (lookupKey (PositionService.AddTrade s t).1.dataStore P).isSome := by
  rcases h with h | h
  · cases hfind : lookupKey s.dataStore t.product.productId with
    | none =>
      simp only [PositionService.AddTrade, hfind]
      exact lookupKey_insertKey_isSome _ _ _ _ (lookupKey_insertKey_isSome _ _ _ _ h)
    | some pos =>
      simp only [PositionService.AddTrade, hfind]
      exact lookupKey_insertKey_isSome _ _ _ _ h
  · subst h
    cases hfind : lookupKey s.dataStore t.product.productId with
    | none =>
      simp [PositionService.AddTrade, hfind, lookupKey_insertKey_self]
    | some pos =>
      simp [PositionService.AddTrade, hfind, lookupKey_insertKey_self]

theorem aggregateOf_ingestTrades (trades : List Trade) (s : PositionServiceState) (P : String) :
    aggregateOf (ingestTrades s trades) P = aggregateOf s P + signedSum trades P := by
  induction trades generalizing s with
  | nil => simp [ingestTrades, signedSum]
  | cons t rest ih =>
    have step := aggregateOf_AddTrade s t P
    by_cases hP : t.product.productId = P
    · simp only [ingestTrades, List.foldl_cons] at *
      rw [ih, step]
      simp [signedSum, hP]
      ring
    · simp only [ingestTrades, List.foldl_cons] at *
      rw [ih, step]
      simp [signedSum, hP]

theorem lookup_ingestTrades_isSome (trades : List Trade) (s : PositionServiceState) (P : String)
    (h : (lookupKey s.dataStore P).isSome ∨ ∃ t ∈ trades, t.product.productId = P) :
    (lookupKey (ingestTrades s trades).dataStore P).isSome := by
  induction trades generalizing s with
  | nil =>
    rcases h with h | hex
    · exact h
    · simp at hex
  | cons t rest ih =>
    simp only [ingestTrades, List.foldl_cons]
    rcases h with h | ⟨t', ht', hP⟩
    · exact ih _ (Or.inl (lookup_AddTrade_isSome s t P (Or.inl h)))
    · rcases List.mem_cons.1 ht' with rfl | hmem
      · exact ih _ (Or.inl (lookup_AddTrade_isSome s t' P (Or.inr hP)))
      · exact ih _ (Or.inr ⟨t', hmem, hP⟩)

/-- C1: after ingesting any finite sequence of trades via `AddTrade` (starting
from an empty service), `GetData` followed by `GetAggregatePosition` for a
product `P` that occurs in the sequence returns exactly the signed sum of all
trade quantities on `P` (BUY positive, SELL negative), independent of how the
trades interleave across books; in particular successive trades on the same
book accumulate their deltas. -/
theorem c1_aggregate_position_signed_sum (trades : List Trade) (P : String)
    (h : ∃ t ∈ trades, t.product.productId = P) :
    ∃ pos : Position,
      PositionService.GetData (ingestTrades emptyPositionService trades) P = Except.ok pos ∧
      pos.GetAggregatePosition = signedSum trades P := by
  have hsome : (lookupKey (ingestTrades emptyPositionService trades).dataStore P).isSome :=
    lookup_ingestTrades_isSome trades emptyPositionService P (Or.inr h)
  cases hfind : lookupKey (ingestTrades emptyPositionService trades).dataStore P with
  | none => rw [hfind] at hsome; simp at hsome
  | some pos =>
    refine ⟨pos, ?_, ?_⟩
    · simp [PositionService.GetData, findGetData, hfind]
    · have h2 := aggregateOf_ingestTrades trades emptyPositionService P
      have h0 : aggregateOf emptyPositionService P = 0 := by
        simp [aggregateOf, emptyPositionService, lookupKey]
      rw [h0] at h2
      simp only [aggregateOf, hfind] at h2
      simpa using h2

def tradeW1 : Trade := ⟨⟨"91282CAV3"⟩, "T1", 99, "TRSY1", 10, Side.BUY⟩

def tradeW2 : Trade := ⟨⟨"91282CAV3"⟩, "T2", 99, "TRSY1", 4, Side.SELL⟩

/-- Concrete run of C1: two trades on the same product and book accumulate. -/
theorem c1_witness :
    (∃ t ∈ [tradeW1, tradeW2], t.product.productId = "91282CAV3") ∧
    ∃ pos : Position,
      PositionService.GetData (ingestTrades emptyPositionService [tradeW1, tradeW2])
        "91282CAV3" = Except.ok pos ∧
      pos.GetAggregatePosition = signedSum [tradeW1, tradeW2] "91282CAV3" :=
  ⟨⟨tradeW1, by simp [tradeW1]⟩,
   c1_aggregate_position_signed_sum [tradeW1, tradeW2] "91282CAV3"
     ⟨tradeW1, by simp [tradeW1]⟩⟩

/-! ### PV01 / BucketedSector / RiskService (riskservice.hpp) -/

/-- `PV01<T>`: product, per-unit pv01, quantity. -/
structure PV01 where
  product : Product
  pv01 : ℚ
  quantity : Int
deriving DecidableEq

/-- `PV01::UpdateQuantity`: overwrites only the quantity field. -/
def PV01.UpdateQuantity (p : PV01) (newQuantity : Int) : PV01 :=
  { p with quantity := newQuantity }

/-- `BucketedSector<T>`: a vector of products plus a name. -/
structure BucketedSector where
  products : List Product
  name : String
deriving DecidableEq

/-- The `PV01<BucketedSector<T>>` value returned by `GetBucketedRisk`. -/
structure BucketPV01 where
  sector : BucketedSector
  pv01 : ℚ
  quantity : Int
deriving DecidableEq

/-- `RiskService<T>` state: `data` map and registered listeners. -/
structure RiskServiceState where
  data : List (String × PV01)
  listeners : List Nat
deriving DecidableEq

def emptyRiskService : RiskServiceState := ⟨[], []⟩

/-- `RiskService::AddPosition`: create `PV01(product, 0.01, aggregate)` on first
sight, otherwise `UpdateQuantity(aggregate)`; then notify via `ProcessUpdate`. -/
def RiskService.AddPosition (s : RiskServiceState) (position : Position) :
    RiskServiceState × List (Nat × CallbackKind) :=
  let productId := position.product.productId
  let aggregatePosition := position.GetAggregatePosition
  let data' :=
    match lookupKey s.data productId with
    | none => insertKey s.data productId ⟨position.product, 1/100, aggregatePosition⟩
    | some pv => insertKey s.data productId (pv.UpdateQuantity aggregatePosition)
  (⟨data', s.listeners⟩, s.listeners.map (fun l => (l, CallbackKind.processUpdate)))

/-- The accumulation loop of `GetBucketedRisk`: walk the sector's products,
throwing on a missing PV01 entry, accumulating `totalPv01` and `totalQuantity`. -/
def riskAccum (data : List (String × PV01)) :
    List Product → ℚ → Int → Except ServiceError (ℚ × Int)
  | [], totalPv01, totalQuantity => Except.ok (totalPv01, totalQuantity)
  | p :: rest, totalPv01, totalQuantity =>
    match lookupKey data p.productId with
    | none =>
      Except.error (ServiceError.notFound ("Product not found in RiskService: " ++ p.productId))
    | some pv =>
      riskAccum data rest (totalPv01 + pv.pv01 * (pv.quantity : ℚ))
        (totalQuantity + pv.quantity)

/-- `RiskService::GetBucketedRisk`: the final division `totalPv01 / totalQuantity`
is unguarded in the source (no zero-quantity check). -/
def RiskService.GetBucketedRisk (s : RiskServiceState) (sector : BucketedSector) :
    Except ServiceError BucketPV01 :=
  (riskAccum s.data sector.products 0 0).map
    (fun acc => ⟨sector, acc.1 / (acc.2 : ℚ), acc.2⟩)

/-- `RiskService::GetData`. -/
def RiskService.GetData (s : RiskServiceState) (productId : String) :
    Except ServiceError PV01 :=
  findGetData s.data productId "PV01 not found for product ID: "

/-- Spec-side: `Σ (pv01_i × quantity_i)` over a sector's products. -/
def sectorWeighted (data : List (String × PV01)) : List Product → ℚ
  | [] => 0
  | p :: rest =>
    (match lookupKey data p.productId with
     | some pv => pv.pv01 * (pv.quantity : ℚ)
     | none => 0) + sectorWeighted data rest

/-- Spec-side: `Σ quantity_i` over a sector's products. -/
def sectorQuantity (data : List (String × PV01)) : List Product → Int
  | [] => 0
  | p :: rest =>
    (match lookupKey data p.productId with
     | some pv => pv.quantity
     | none => 0) + sectorQuantity data rest

theorem riskAccum_all_present (data : List (String × PV01)) (ps : List Product)
    (tp : ℚ) (tq : Int)
    (hall : ∀ p ∈ ps, (lookupKey data p.productId).isSome) :
    riskAccum data ps tp tq =
      Except.ok (tp + sectorWeighted data ps, tq + sectorQuantity data ps) := by
  induction ps generalizing tp tq with
  | nil => simp [riskAccum, sectorWeighted, sectorQuantity]
  | cons p rest ih =>
    have hp := hall p (List.mem_cons_self _ _)
    cases hfind : lookupKey data p.productId with
    | none => rw [hfind] at hp; simp at hp
    | some pv =>
      simp only [riskAccum, hfind]
      rw [ih _ _ (fun q hq => hall q (List.mem_cons_of_mem _ hq))]
      simp only [sectorWeighted, sectorQuantity, hfind]
      congr 1
      simp only [Prod.mk.injEq]
      constructor <;> ring

theorem riskAccum_missing (data : List (String × PV01)) (ps : List Product)
    (tp : ℚ) (tq : Int)
    (hmiss : ∃ p ∈ ps, lookupKey data p.productId = none) :
    ∃ msg, riskAccum data ps tp tq = Except.error (ServiceError.notFound msg) := by
  induction ps generalizing tp tq with
  | nil => obtain ⟨p, hp, _⟩ := hmiss; simp at hp
  | cons p rest ih =>
    cases hfind : lookupKey data p.productId with
    | none =>
      refine ⟨"Product not found in RiskService: " ++ p.productId, ?_⟩
      simp [riskAccum, hfind]
    | some pv =>
      obtain ⟨q, hq, hqn⟩ := hmiss
      rcases List.mem_cons.1 hq with rfl | hm
      · rw [hqn] at hfind; cases hfind
      · simp only [riskAccum, hfind]
        exact ih _ _ ⟨q, hm, hqn⟩

/-- C2: when every product of the sector has a PV01 entry and the total quantity
is nonzero, `GetBucketedRisk` returns the bucket PV01 whose per-unit value is
`Σ(pv01_i × quantity_i) / Σ(quantity_i)` and whose quantity is `Σ(quantity_i)`;
when some product of the sector has no PV01 entry, it fails with a not-found
error. -/
theorem c2_bucketed_risk_weighted_average (s : RiskServiceState) (sector : BucketedSector) :
    ((∀ p ∈ sector.products, (lookupKey s.data p.productId).isSome) →
      sectorQuantity s.data sector.products ≠ 0 →
      RiskService.GetBucketedRisk s sector =
        Except.ok ⟨sector,
          sectorWeighted s.data sector.products /
            ((sectorQuantity s.data sector.products : Int) : ℚ),
          sectorQuantity s.data sector.products⟩) ∧
    ((∃ p ∈ sector.products, lookupKey s.data p.productId = none) →
      ∃ msg, RiskService.GetBucketedRisk s sector =
        Except.error (ServiceError.notFound msg)) := by
  constructor
  · intro hall _
    rw [RiskService.GetBucketedRisk, riskAccum_all_present s.data sector.products 0 0 hall]
    simp [Except.map]
  · intro hmiss
    obtain ⟨msg, hmsg⟩ := riskAccum_missing s.data sector.products 0 0 hmiss
    exact ⟨msg, by rw [RiskService.GetBucketedRisk, hmsg]; rfl⟩

def prodA : Product := ⟨"A"⟩

def prodB : Product := ⟨"B"⟩

def riskStateW : RiskServiceState :=
  ⟨[("A", ⟨prodA, 1/2, 2⟩), ("B", ⟨prodB, 1/4, 6⟩)], []⟩

/-- Concrete run of C2 on a two-product sector with distinct sensitivities. -/
theorem c2_witness :
    (∀ p ∈ [prodA, prodB], (lookupKey riskStateW.data p.productId).isSome) ∧
    sectorQuantity riskStateW.data [prodA, prodB] ≠ 0 ∧
    RiskService.GetBucketedRisk riskStateW ⟨[prodA, prodB], "GOVT"⟩ =
      Except.ok ⟨⟨[prodA, prodB], "GOVT"⟩,
        sectorWeighted riskStateW.data [prodA, prodB] /
          ((sectorQuantity riskStateW.data [prodA, prodB] : Int) : ℚ),
        sectorQuantity riskStateW.data [prodA, prodB]⟩ :=
  ⟨by decide, by decide,
   (c2_bucketed_risk_weighted_average riskStateW ⟨[prodA, prodB], "GOVT"⟩).1
     (by decide) (by decide)⟩

def prodZ : Product := ⟨"Z"⟩

/-- A reachable-shape risk state whose only entry has quantity 0. -/
def riskZeroState : RiskServiceState := ⟨[("Z", ⟨prodZ, 1/100, 0⟩)], []⟩

/-- C3: on a sector whose products are all risked but whose total quantity is
zero, the source `GetBucketedRisk` does NOT raise any error: it runs the
unguarded division `totalPv01 / totalQuantity` and returns a value (`NaN`/`inf`
in C++ doubles), contradicting the spec's required `InvalidAggregationError`. -/
theorem c3_zero_quantity_no_error :
    sectorQuantity riskZeroState.data [prodZ] = 0 ∧
    (RiskService.GetBucketedRisk riskZeroState ⟨[prodZ], "ZEROQ"⟩).isOk = true := by
  constructor
  · decide
  · rfl

/-- C8: the first `AddPosition` for a product stores a PV01 entry with the fixed
per-unit sensitivity 0.01 and quantity equal to the position's aggregate; every
later `AddPosition` for that product rewrites only the quantity field, keeping
the stored product and per-unit sensitivity unchanged. -/
theorem c8_addposition_creates_then_updates_quantity
    (s : RiskServiceState) (position : Position) :
    (lookupKey s.data position.product.productId = none →
      lookupKey (RiskService.AddPosition s position).1.data position.product.productId =
        some ⟨position.product, 1/100, position.GetAggregatePosition⟩) ∧
    (∀ pv, lookupKey s.data position.product.productId = some pv →
      lookupKey (RiskService.AddPosition s position).1.data position.product.productId =
        some ⟨pv.product, pv.pv01, position.GetAggregatePosition⟩) := by
  constructor
  · intro hnone
    simp [RiskService.AddPosition, hnone, lookupKey_insertKey_self]
  · intro pv hsome
    simp [RiskService.AddPosition, hsome, lookupKey_insertKey_self, PV01.UpdateQuantity]

def positionW1 : Position := ⟨prodA, [("TRSY1", 7)]⟩

def positionW2 : Position := ⟨prodA, [("TRSY1", 7), ("TRSY2", -3)]⟩

/-- Concrete run of C8: create at aggregate 7, then re-risk at aggregate 4. -/
theorem c8_witness :
    (lookupKey emptyRiskService.data "A" = none ∧
      lookupKey (RiskService.AddPosition emptyRiskService positionW1).1.data "A" =
        some ⟨prodA, 1/100, positionW1.GetAggregatePosition⟩) ∧
    (lookupKey (RiskService.AddPosition emptyRiskService positionW1).1.data "A" =
        some ⟨prodA, 1/100, 7⟩ ∧
      lookupKey
        (RiskService.AddPosition
          (RiskService.AddPosition emptyRiskService positionW1).1 positionW2).1.data "A" =
        some ⟨prodA, 1/100, positionW2.GetAggregatePosition⟩) :=
  ⟨⟨by decide,
    (c8_addposition_creates_then_updates_quantity emptyRiskService positionW1).1 (by decide)⟩,
   ⟨by rfl,
    (c8_addposition_creates_then_updates_quantity
        (RiskService.AddPosition emptyRiskService positionW1).1 positionW2).2
      ⟨prodA, 1/100, 7⟩ (by rfl)⟩⟩

theorem lookupKey_mem {V : Type} (m : List (String × V)) (k : String) (v : V)
    (h : lookupKey m k = some v) : (k, v) ∈ m := by
  induction m with
  | nil => simp [lookupKey] at h
  | cons hd tl ih =>
    obtain ⟨k₀, v₀⟩ := hd
    simp only [lookupKey] at h
    by_cases hk : k₀ = k
    · rw [if_pos hk] at h
      obtain rfl : v₀ = v := by injection h
      cases hk
      exact List.mem_cons_self _ _
    · rw [if_neg hk] at h
      exact List.mem_cons_of_mem _ (ih h)

theorem mem_insertKey {V : Type} (m : List (String × V)) (k : String) (v : V) (e : String × V)
    (h : e ∈ insertKey m k v) : e = (k, v) ∨ e ∈ m := by
  induction m with
  | nil => simp [insertKey] at h; exact Or.inl h
  | cons hd tl ih =>
    obtain ⟨k₀, v₀⟩ := hd
    simp only [insertKey] at h
    by_cases hk : k₀ = k
    · rw [if_pos hk] at h
      rcases List.mem_cons.1 h with rfl | hm
      · exact Or.inl rfl
      · exact Or.inr (List.mem_cons_of_mem _ hm)
    · rw [if_neg hk] at h
      rcases List.mem_cons.1 h with rfl | hm
      · exact Or.inr (List.mem_cons_self _ _)
      · rcases ih hm with h' | h'
        · exact Or.inl h'
        · exact Or.inr (List.mem_cons_of_mem _ h')

/-- Reachable RiskService states: the empty store (any initial listeners), grown
by the service's two mutators, `AddPosition` and `AddListener` (push_back). -/
inductive RiskReachable : RiskServiceState → Prop
  | init (listeners : List Nat) : RiskReachable ⟨[], listeners⟩
  | addPosition (s : RiskServiceState) (position : Position) :
      RiskReachable s → RiskReachable (RiskService.AddPosition s position).1
  | addListener (s : RiskServiceState) (l : Nat) :
      RiskReachable s → RiskReachable ⟨s.data, s.listeners ++ [l]⟩

theorem riskReachable_pv01 {s : RiskServiceState} (h : RiskReachable s) :
    ∀ e ∈ s.data, e.2.pv01 = 1/100 := by
  induction h with
  | init listeners => intro e he; simp at he
  | addPosition s position hr ih =>
    intro e he
    cases hfind : lookupKey s.data position.product.productId with
    | none =>
      simp only [RiskService.AddPosition, hfind] at he
      rcases mem_insertKey _ _ _ _ he with rfl | hm
      · rfl
      · exact ih e hm
    | some pv =>
      simp only [RiskService.AddPosition, hfind] at he
      rcases mem_insertKey _ _ _ _ he with rfl | hm
      · exact ih (position.product.productId, pv) (lookupKey_mem _ _ _ hfind)
      · exact ih e hm
  | addListener s l hr ih => exact ih

theorem sectorWeighted_const (data : List (String × PV01)) (ps : List Product) (c : ℚ)
    (hall : ∀ p ∈ ps, ∀ pv, lookupKey data p.productId = some pv → pv.pv01 = c) :
    sectorWeighted data ps = c * ((sectorQuantity data ps : Int) : ℚ) := by
  induction ps with
  | nil => simp [sectorWeighted, sectorQuantity]
  | cons p rest ih =>
    have hrest := ih fun q hq pv hpv => hall q (List.mem_cons_of_mem _ hq) pv hpv
    cases hfind : lookupKey data p.productId with
    | none =>
      simp only [sectorWeighted, sectorQuantity, hfind]
      push_cast
      rw [hrest]
      ring
    | some pv =>
      have hc := hall p (List.mem_cons_self _ _) pv hfind
      simp only [sectorWeighted, sectorQuantity, hfind]
      push_cast
      rw [hrest, hc]
      ring

/-- C10: in every reachable RiskService state, every stored PV01 entry carries
the per-unit sensitivity 0.01, and consequently `GetBucketedRisk` over any
fully-risked sector with nonzero total quantity returns a bucket whose
quantity-weighted average per-unit value is exactly 0.01. -/
theorem c10_pv01_constant_invariant (s : RiskServiceState) (h : RiskReachable s) :
    (∀ e ∈ s.data, e.2.pv01 = 1/100) ∧
    (∀ sector : BucketedSector,
      (∀ p ∈ sector.products, (lookupKey s.data p.productId).isSome) →
      sectorQuantity s.data sector.products ≠ 0 →
      RiskService.GetBucketedRisk s sector =
        Except.ok ⟨sector, 1/100, sectorQuantity s.data sector.products⟩) := by
  have hinv := riskReachable_pv01 h
  refine ⟨hinv, ?_⟩
  intro sector hall hQ
  have hW : sectorWeighted s.data sector.products
      = (1/100 : ℚ) * ((sectorQuantity s.data sector.products : Int) : ℚ) :=
    sectorWeighted_const s.data sector.products (1/100)
      (fun p _ pv hpv => hinv (p.productId, pv) (lookupKey_mem _ _ _ hpv))
  have hdiv : sectorWeighted s.data sector.products /
      ((sectorQuantity s.data sector.products : Int) : ℚ) = 1/100 := by
    rw [hW, mul_div_assoc, div_self (Int.cast_ne_zero.mpr hQ), mul_one]
  rw [RiskService.GetBucketedRisk, riskAccum_all_present s.data sector.products 0 0 hall]
  simp only [Except.map, zero_add]
  rw [hdiv]

def riskReachableW : RiskServiceState :=
  (RiskService.AddPosition emptyRiskService positionW1).1

/-- Concrete run of C10 on a state reached by one `AddPosition`. -/
theorem c10_witness :
    RiskReachable riskReachableW ∧
    RiskService.GetBucketedRisk riskReachableW ⟨[prodA], "ONEPROD"⟩ =
      Except.ok ⟨⟨[prodA], "ONEPROD"⟩, 1/100,
        sectorQuantity riskReachableW.data [prodA]⟩ :=
  have hreach : RiskReachable riskReachableW :=
    RiskReachable.addPosition emptyRiskService positionW1 (RiskReachable.init [])
  ⟨hreach,
   (c10_pv01_constant_invariant riskReachableW hreach).2 ⟨[prodA], "ONEPROD"⟩
     (by decide) (by decide)⟩

/-! ### Market data (marketdataservice.hpp, found inside tradebookingservice part) -/

/-- `enum PricingSide { BID, OFFER }`. -/
inductive PricingSide
  | BID
  | OFFER
deriving DecidableEq

/-- `Order`: one price level. -/
structure Order where
  price : ℚ
  quantity : Int
  side : PricingSide
deriving DecidableEq

/-- `BidOffer`: a bid order and an offer order. -/
structure BidOffer where
  bidOrder : Order
  offerOrder : Order
deriving DecidableEq

/-- `OrderBook<T>`: product plus bid and offer stacks. -/
structure OrderBook where
  product : Product
  bidStack : List Order
  offerStack : List Order
deriving DecidableEq

/-- The value-initialized `OrderBook` materialized by `std::map::operator[]`
on a missing key (empty product id, empty stacks). -/
def defaultOrderBook : OrderBook := ⟨⟨""⟩, [], []⟩

/-- `MarketDataService<T>` state: `dataStore`, listeners, and the
`bestBidOffer` member cache written by `GetBestBidOffer`. -/
structure MarketDataServiceState where
  dataStore : List (String × OrderBook)
  listeners : List Nat
  bestBidOffer : Option BidOffer
deriving DecidableEq

def emptyMarketDataService : MarketDataServiceState := ⟨[], [], none⟩

/-- Outcome of `GetBestBidOffer`: a `BidOffer`, or the undefined out-of-range
`vector::front()` access on an empty stack (the C++ raises no exception there). -/
inductive BBOOutcome
  | ok (b : BidOffer)
  | outOfRangeFront
deriving DecidableEq

/-- `MarketDataService::GetBestBidOffer`: `dataStore[productId]` (default-insert
on a missing key), `front()` of the bid and offer stacks, then assign the
`bestBidOffer` member and return it. -/
def MarketDataService.GetBestBidOffer (s : MarketDataServiceState) (productId : String) :
    BBOOutcome × MarketDataServiceState :=
  let pair := mapIndexDefault s.dataStore productId defaultOrderBook
  match pair.1.bidStack, pair.1.offerStack with
  | bestBid :: _, bestOffer :: _ =>
    (BBOOutcome.ok ⟨bestBid, bestOffer⟩,
     ⟨pair.2, s.listeners, some ⟨bestBid, bestOffer⟩⟩)
  | _, _ => (BBOOutcome.outOfRangeFront, ⟨pair.2, s.listeners, s.bestBidOffer⟩)

/-- `MarketDataService::AggregateDepth`: `return dataStore[productId]`
(default-insert on a missing key, no compaction, no error path). -/
def MarketDataService.AggregateDepth (s : MarketDataServiceState) (productId : String) :
    OrderBook × MarketDataServiceState :=
  let pair := mapIndexDefault s.dataStore productId defaultOrderBook
  (pair.1, ⟨pair.2, s.listeners, s.bestBidOffer⟩)

/-- `MarketDataService::OnMessage`: store the book by product id, notify all
listeners via `ProcessAdd`. -/
def MarketDataService.OnMessage (s : MarketDataServiceState) (orderBook : OrderBook) :
    MarketDataServiceState × List (Nat × CallbackKind) :=
  (⟨insertKey s.dataStore orderBook.product.productId orderBook, s.listeners, s.bestBidOffer⟩,
   s.listeners.map (fun l => (l, CallbackKind.processAdd)))

/-- `MarketDataService::GetData`. -/
def MarketDataService.GetData (s : MarketDataServiceState) (productId : String) :
    Except ServiceError OrderBook :=
  findGetData s.dataStore productId "OrderBook not found for product ID: "

/-! ### Trade booking (tradebookingservice.hpp) -/

structure TradeBookingServiceState where
  dataStore : List (String × Trade)
  listeners : List Nat
deriving DecidableEq

/-- `TradeBookingService::BookTrade`: store by trade id, notify via `ProcessAdd`. -/
def TradeBookingService.BookTrade (s : TradeBookingServiceState) (trade : Trade) :
    TradeBookingServiceState × List (Nat × CallbackKind) :=
  (⟨insertKey s.dataStore trade.tradeId trade, s.listeners⟩,
   s.listeners.map (fun l => (l, CallbackKind.processAdd)))

/-- `TradeBookingService::GetData`. -/
def TradeBookingService.GetData (s : TradeBookingServiceState) (tradeId : String) :
    Except ServiceError Trade :=
  findGetData s.dataStore tradeId "Trade not found for ID: "

/-! ### Streaming (streamingservice.hpp) -/

structure PriceStreamOrder where
  price : ℚ
  visibleQuantity : Int
  hiddenQuantity : Int
  side : PricingSide
deriving DecidableEq

structure PriceStream where
  product : Product
  bidOrder : PriceStreamOrder
  offerOrder : PriceStreamOrder
deriving DecidableEq

structure StreamingServiceState where
  dataStore : List (String × PriceStream)
  listeners : List Nat
deriving DecidableEq

/-- `StreamingService::PublishPrice`: store by product id, notify via `ProcessAdd`. -/
def StreamingService.PublishPrice (s : StreamingServiceState) (priceStream : PriceStream) :
    StreamingServiceState × List (Nat × CallbackKind) :=
  (⟨insertKey s.dataStore priceStream.product.productId priceStream, s.listeners⟩,
   s.listeners.map (fun l => (l, CallbackKind.processAdd)))

/-- `StreamingService::GetData`. -/
def StreamingService.GetData (s : StreamingServiceState) (productId : String) :
    Except ServiceError PriceStream :=
  findGetData s.dataStore productId "PriceStream not found for product ID: "

/-! ### Pricing (pricingservice.hpp) -/

structure Price where
  product : Product
  mid : ℚ
  bidOfferSpread : ℚ
deriving DecidableEq

structure PricingServiceState where
  dataStore : List (String × Price)
  listeners : List Nat
deriving DecidableEq

/-- `PricingService::PublishPrice`: store by product id, notify via `ProcessAdd`. -/
def PricingService.PublishPrice (s : PricingServiceState) (price : Price) :
    PricingServiceState × List (Nat × CallbackKind) :=
  (⟨insertKey s.dataStore price.product.productId price, s.listeners⟩,
   s.listeners.map (fun l => (l, CallbackKind.processAdd)))

/-- `PricingService::GetData`. -/
def PricingService.GetData (s : PricingServiceState) (productId : String) :
    Except ServiceError Price :=
  findGetData s.dataStore productId "Price not found for product ID: "

/-! ### Inquiry (inquiryservice.hpp) -/

/-- `enum InquiryState`. -/
inductive InquiryState
  | RECEIVED
  | QUOTED
  | DONE
  | REJECTED
  | CUSTOMER_REJECTED
deriving DecidableEq

structure Inquiry where
  inquiryId : String
  product : Product
  side : Side
  quantity : Int
  price : ℚ
  state : InquiryState
deriving DecidableEq

structure InquiryServiceState where
  dataStore : List (String × Inquiry)
  listeners : List Nat
deriving DecidableEq

/-- `InquiryService::OnMessage`: store by inquiry id, notify via `ProcessAdd`. -/
def InquiryService.OnMessage (s : InquiryServiceState) (inquiry : Inquiry) :
    InquiryServiceState × List (Nat × CallbackKind) :=
  (⟨insertKey s.dataStore inquiry.inquiryId inquiry, s.listeners⟩,
   s.listeners.map (fun l => (l, CallbackKind.processAdd)))

/-- `InquiryService::SendQuote`: throw if the id is unknown; else set price and
state QUOTED on the stored inquiry and notify via `ProcessUpdate`. -/
def InquiryService.SendQuote (s : InquiryServiceState) (inquiryId : String) (price : ℚ) :
    Except ServiceError (InquiryServiceState × List (Nat × CallbackKind)) :=
  match lookupKey s.dataStore inquiryId with
  | none => Except.error (ServiceError.notFound ("Inquiry not found for ID: " ++ inquiryId))
  | some inquiry =>
    let inquiry' := { inquiry with price := price, state := InquiryState.QUOTED }
    Except.ok (⟨insertKey s.dataStore inquiryId inquiry', s.listeners⟩,
      s.listeners.map (fun l => (l, CallbackKind.processUpdate)))

/-- `InquiryService::RejectInquiry`: throw if the id is unknown; else set state
REJECTED on the stored inquiry and notify via `ProcessUpdate`. -/
def InquiryService.RejectInquiry (s : InquiryServiceState) (inquiryId : String) :
    Except ServiceError (InquiryServiceState × List (Nat × CallbackKind)) :=
  match lookupKey s.dataStore inquiryId with
  | none => Except.error (ServiceError.notFound ("Inquiry not found for ID: " ++ inquiryId))
  | some inquiry =>
    let inquiry' := { inquiry with state := InquiryState.REJECTED }
    Except.ok (⟨insertKey s.dataStore inquiryId inquiry', s.listeners⟩,
      s.listeners.map (fun l => (l, CallbackKind.processUpdate)))

/-- `InquiryService::GetData`. -/
def InquiryService.GetData (s : InquiryServiceState) (inquiryId : String) :
    Except ServiceError Inquiry :=
  findGetData s.dataStore inquiryId "Inquiry not found for ID: "

/-! ### Execution (executionservice.hpp) -/

inductive OrderType
  | FOK
  | IOC
  | MARKET
  | LIMIT
  | STOP
deriving DecidableEq

structure ExecutionOrder where
  product : Product
  side : PricingSide
  orderId : String
  orderType : OrderType
  price : ℚ
  visibleQuantity : ℚ
  hiddenQuantity : ℚ
  parentOrderId : String
  isChildOrder : Bool
deriving DecidableEq

structure ExecutionServiceState where
  data : List (String × ExecutionOrder)
  listeners : List Nat
deriving DecidableEq

/-- `ExecutionService::GetData` uses `std::map::at`, which throws
`std::out_of_range` on a missing key. -/
def ExecutionService.GetData (s : ExecutionServiceState) (key : String) :
    Except ServiceError ExecutionOrder :=
  match lookupKey s.data key with
  | some v => Except.ok v
  | none => Except.error ServiceError.outOfRange

/-! ### Historical data (historicaldataservice.hpp), generic over the stored type -/

structure HistoricalDataServiceState (T : Type) where
  dataStore : List (String × T)
  listeners : List Nat

/-- `HistoricalDataService::GetData`. -/
def HistoricalDataService.GetData {T : Type} (s : HistoricalDataServiceState T)
    (key : String) : Except ServiceError T :=
  findGetData s.dataStore key "Data not found for key: "

/-! ### Claims about fan-out, unknown keys, empty stacks, purity, inquiries -/

/-- C4 counterexample: `AddTrade` on a service where the product key is absent
fires `ProcessUpdate` for the registered listener, not `ProcessAdd` as the
claim requires for a previously-absent key. -/
theorem c4_counterexample :
    lookupKey ([] : List (String × Position)) tradeW1.product.productId = none ∧
    (PositionService.AddTrade ⟨[], [0]⟩ tradeW1).2 = [(0, CallbackKind.processUpdate)] ∧
    (PositionService.AddTrade ⟨[], [0]⟩ tradeW1).2 ≠ [(0, CallbackKind.processAdd)] :=
  ⟨rfl, rfl, by decide⟩

/-- C4 (amended): every publish/ingestion operation notifies each registered
listener exactly once, in registration order (the events are exactly the
listener list mapped in order); but the callback variant is fixed per
operation — `PublishPrice`, `BookTrade` and `OnMessage` always fire
`ProcessAdd`, `AddTrade` always fires `ProcessUpdate` — independent of whether
the key existed before the call. -/
theorem c4_fanout_exactly_once_fixed_variant
    (sst : StreamingServiceState) (ps : PriceStream)
    (stb : TradeBookingServiceState) (t : Trade)
    (spos : PositionServiceState) (t' : Trade)
    (sm : MarketDataServiceState) (ob : OrderBook) :
    (StreamingService.PublishPrice sst ps).2 =
      sst.listeners.map (fun l => (l, CallbackKind.processAdd)) ∧
    (TradeBookingService.BookTrade stb t).2 =
      stb.listeners.map (fun l => (l, CallbackKind.processAdd)) ∧
    (MarketDataService.OnMessage sm ob).2 =
      sm.listeners.map (fun l => (l, CallbackKind.processAdd)) ∧
    (PositionService.AddTrade spos t').2 =
      spos.listeners.map (fun l => (l, CallbackKind.processUpdate)) :=
  ⟨rfl, rfl, rfl, rfl⟩

/-- C5 counterexample: `AggregateDepth` for a product never published does not
fail with a not-found error — it returns the default-constructed (empty) order
book, which `operator[]` also inserts into the table. -/
theorem c5_counterexample :
    (MarketDataService.AggregateDepth emptyMarketDataService "no-such-id").1 =
      defaultOrderBook ∧
    (MarketDataService.AggregateDepth emptyMarketDataService "no-such-id").2.dataStore =
      [("no-such-id", defaultOrderBook)] :=
  ⟨rfl, rfl⟩

/-- C5 (amended): for a key never published, `GetData` on every service and the
inquiry lookup fail (a not-found runtime error; `map::at`'s out-of-range for
ExecutionService) and never return a default-constructed value; but
`GetBestBidOffer` and `AggregateDepth` do not fail with a not-found error on an
unknown product: `operator[]` default-inserts an empty order book, which
`AggregateDepth` returns and on which `GetBestBidOffer` hits the out-of-range
empty-stack `front()`. -/
theorem c5_unknown_key_queries
    (spr : PricingServiceState) (sst : StreamingServiceState)
    (spos : PositionServiceState) (sr : RiskServiceState)
    (stb : TradeBookingServiceState) (si : InquiryServiceState)
    (se : ExecutionServiceState) (sh : HistoricalDataServiceState Trade)
    (sm : MarketDataServiceState) (k : String) :
    (lookupKey spr.dataStore k = none →
      PricingService.GetData spr k =
        Except.error (ServiceError.notFound ("Price not found for product ID: " ++ k))) ∧
    (lookupKey sst.dataStore k = none →
      StreamingService.GetData sst k =
        Except.error (ServiceError.notFound ("PriceStream not found for product ID: " ++ k))) ∧
    (lookupKey spos.dataStore k = none →
      PositionService.GetData spos k =
        Except.error (ServiceError.notFound ("Position not found for product ID: " ++ k))) ∧
    (lookupKey sr.data k = none →
      RiskService.GetData sr k =
        Except.error (ServiceError.notFound ("PV01 not found for product ID: " ++ k))) ∧
    (lookupKey stb.dataStore k = none →
      TradeBookingService.GetData stb k =
        Except.error (ServiceError.notFound ("Trade not found for ID: " ++ k))) ∧
    (lookupKey si.dataStore k = none →
      InquiryService.GetData si k =
        Except.error (ServiceError.notFound ("Inquiry not found for ID: " ++ k))) ∧
    (lookupKey sm.dataStore k = none →
      MarketDataService.GetData sm k =
        Except.error (ServiceError.notFound ("OrderBook not found for product ID: " ++ k))) ∧
    (lookupKey se.data k = none →
      ExecutionService.GetData se k = Except.error ServiceError.outOfRange) ∧
    (lookupKey sh.dataStore k = none →
      HistoricalDataService.GetData sh k =
        Except.error (ServiceError.notFound ("Data not found for key: " ++ k))) ∧
    (lookupKey sm.dataStore k = none →
      (MarketDataService.AggregateDepth sm k).1 = defaultOrderBook ∧
      (MarketDataService.GetBestBidOffer sm k).1 = BBOOutcome.outOfRangeFront) := by
  refine ⟨?_, ?_, ?_, ?_, ?_, ?_, ?_, ?_, ?_, ?_⟩ <;> intro h <;>
    simp_all [PricingService.GetData, StreamingService.GetData, PositionService.GetData,
      RiskService.GetData, TradeBookingService.GetData, InquiryService.GetData,
      MarketDataService.GetData, ExecutionService.GetData, HistoricalDataService.GetData,
      findGetData, MarketDataService.AggregateDepth, MarketDataService.GetBestBidOffer,
      mapIndexDefault, defaultOrderBook]

/-- Concrete run of C5 at key "no-such-id" against empty services. -/
theorem c5_witness :
    PricingService.GetData ⟨[], []⟩ "no-such-id" =
      Except.error
        (ServiceError.notFound ("Price not found for product ID: " ++ "no-such-id")) ∧
    StreamingService.GetData ⟨[], []⟩ "no-such-id" =
      Except.error
        (ServiceError.notFound ("PriceStream not found for product ID: " ++ "no-such-id")) ∧
    PositionService.GetData ⟨[], []⟩ "no-such-id" =
      Except.error
        (ServiceError.notFound ("Position not found for product ID: " ++ "no-such-id")) ∧
    RiskService.GetData ⟨[], []⟩ "no-such-id" =
      Except.error
        (ServiceError.notFound ("PV01 not found for product ID: " ++ "no-such-id")) ∧
    TradeBookingService.GetData ⟨[], []⟩ "no-such-id" =
      Except.error (ServiceError.notFound ("Trade not found for ID: " ++ "no-such-id")) ∧
    InquiryService.GetData ⟨[], []⟩ "no-such-id" =
      Except.error (ServiceError.notFound ("Inquiry not found for ID: " ++ "no-such-id")) ∧
    MarketDataService.GetData emptyMarketDataService "no-such-id" =
      Except.error
        (ServiceError.notFound ("OrderBook not found for product ID: " ++ "no-such-id")) ∧
    ExecutionService.GetData ⟨[], []⟩ "no-such-id" = Except.error ServiceError.outOfRange ∧
    HistoricalDataService.GetData (⟨[], []⟩ : HistoricalDataServiceState Trade)
      "no-such-id" =
      Except.error (ServiceError.notFound ("Data not found for key: " ++ "no-such-id")) ∧
    ((MarketDataService.AggregateDepth emptyMarketDataService "no-such-id").1 =
        defaultOrderBook ∧
      (MarketDataService.GetBestBidOffer emptyMarketDataService "no-such-id").1 =
        BBOOutcome.outOfRangeFront) :=
  have h := c5_unknown_key_queries ⟨[], []⟩ ⟨[], []⟩ ⟨[], []⟩ ⟨[], []⟩ ⟨[], []⟩ ⟨[], []⟩
    ⟨[], []⟩ ⟨[], []⟩ emptyMarketDataService "no-such-id"
  ⟨h.1 rfl, h.2.1 rfl, h.2.2.1 rfl, h.2.2.2.1 rfl, h.2.2.2.2.1 rfl, h.2.2.2.2.2.1 rfl,
   h.2.2.2.2.2.2.1 rfl, h.2.2.2.2.2.2.2.1 rfl, h.2.2.2.2.2.2.2.2.1 rfl,
   h.2.2.2.2.2.2.2.2.2 rfl⟩

def bookEmptyBids : OrderBook := ⟨⟨"T1"⟩, [], [⟨100, 100, PricingSide.OFFER⟩]⟩

def mdStateC6 : MarketDataServiceState := ⟨[("T1", bookEmptyBids)], [], none⟩

/-- C6: `GetBestBidOffer` on a stored order book whose bid stack is empty
reaches `vector::front()` on an empty vector — an undefined out-of-range
access — rather than failing with any defined `PreconditionViolation` error,
contradicting the claim (and the spec's mandated strengthening in sections 7
and 9). -/
theorem c6_empty_stack_out_of_range :
    lookupKey mdStateC6.dataStore "T1" = some bookEmptyBids ∧
    bookEmptyBids.bidStack = [] ∧
    (MarketDataService.GetBestBidOffer mdStateC6 "T1").1 = BBOOutcome.outOfRangeFront :=
  ⟨rfl, rfl, rfl⟩

theorem mapIndexDefault_frame {V : Type} (store : List (String × V)) (k : String)
    (dflt : V) (h : (lookupKey store k).isSome) :
    (mapIndexDefault store k dflt).2 = store := by
  cases hfind : lookupKey store k with
  | none => rw [hfind] at h; simp at h
  | some v => simp [mapIndexDefault, hfind]

theorem getBestBidOffer_frame (s : MarketDataServiceState) (k : String) :
    (MarketDataService.GetBestBidOffer s k).2.dataStore =
      (mapIndexDefault s.dataStore k defaultOrderBook).2 ∧
    (MarketDataService.GetBestBidOffer s k).2.listeners = s.listeners := by
  simp only [MarketDataService.GetBestBidOffer]
  split <;> exact ⟨rfl, rfl⟩

/-- C7 counterexample: `GetBestBidOffer` for an unknown product mutates the
service's stored table — `operator[]` inserts a default-constructed order book
— so it is not a pure read for every service state. -/
theorem c7_counterexample :
    emptyMarketDataService.dataStore = [] ∧
    (MarketDataService.GetBestBidOffer emptyMarketDataService "UNKNOWN").2.dataStore =
      [("UNKNOWN", defaultOrderBook)] :=
  ⟨rfl, rfl⟩

/-- C7 (amended): `GetData` (find-then-read, read-only on a hit, as the
`operator[]` frame lemma states), `GetBucketedRisk` (a const computation over
the `data` table alone) and `GetAggregatePosition` are pure reads;
`GetBestBidOffer` leaves the stored table and listener list unchanged only when
the product is already stored — on an absent product it inserts a
default-constructed order book into the table (it also rewrites the
`bestBidOffer` member cache, which is outside the keyed table). -/
theorem c7_queries_frame (store : List (String × OrderBook)) (dflt : OrderBook)
    (s : MarketDataServiceState) (r r' : RiskServiceState)
    (sector : BucketedSector) (k : String) :
    ((lookupKey store k).isSome → (mapIndexDefault store k dflt).2 = store) ∧
    ((lookupKey s.dataStore k).isSome →
      (MarketDataService.GetBestBidOffer s k).2.dataStore = s.dataStore ∧
      (MarketDataService.GetBestBidOffer s k).2.listeners = s.listeners) ∧
    (r.data = r'.data →
      RiskService.GetBucketedRisk r sector = RiskService.GetBucketedRisk r' sector) := by
  refine ⟨fun h => mapIndexDefault_frame store k dflt h, fun h => ?_, fun h => ?_⟩
  · have hbbo := getBestBidOffer_frame s k
    have hmap := mapIndexDefault_frame s.dataStore k defaultOrderBook h
    exact ⟨hbbo.1.trans hmap, hbbo.2⟩
  · simp [RiskService.GetBucketedRisk, h]

def bookW : OrderBook :=
  ⟨⟨"T2"⟩, [⟨199/2, 100, PricingSide.BID⟩], [⟨100, 100, PricingSide.OFFER⟩]⟩

def mdStateW : MarketDataServiceState := ⟨[("T2", bookW)], [3], none⟩

/-- Concrete run of C7 on a state where the queried product is present. -/
theorem c7_witness :
    (mapIndexDefault mdStateW.dataStore "T2" defaultOrderBook).2 = mdStateW.dataStore ∧
    ((MarketDataService.GetBestBidOffer mdStateW "T2").2.dataStore = mdStateW.dataStore ∧
      (MarketDataService.GetBestBidOffer mdStateW "T2").2.listeners = mdStateW.listeners) ∧
    RiskService.GetBucketedRisk riskStateW ⟨[prodA], "X"⟩ =
      RiskService.GetBucketedRisk ⟨riskStateW.data, [9]⟩ ⟨[prodA], "X"⟩ :=
  have h := c7_queries_frame mdStateW.dataStore defaultOrderBook mdStateW riskStateW
    ⟨riskStateW.data, [9]⟩ ⟨[prodA], "X"⟩ "T2"
  ⟨h.1 rfl, h.2.1 rfl, h.2.2 rfl⟩

/-- C9: after `OnMessage` ingests an inquiry, `SendQuote` on its id succeeds and
the stored value read back by `GetData` has state QUOTED and the quoted price;
a subsequent `RejectInquiry` succeeds and `GetData` then reads state REJECTED
(price still the latest quote) — the latest stored value, never a stale one;
`SendQuote` and `RejectInquiry` on an unknown inquiry id fail with a not-found
error. -/
theorem c9_inquiry_lifecycle (s : InquiryServiceState) (inq : Inquiry) (p : ℚ)
    (badId : String) :
    (∃ s2 ev2 s3 ev3,
      InquiryService.SendQuote (InquiryService.OnMessage s inq).1 inq.inquiryId p =
        Except.ok (s2, ev2) ∧
      InquiryService.GetData s2 inq.inquiryId =
        Except.ok { inq with price := p, state := InquiryState.QUOTED } ∧
      InquiryService.RejectInquiry s2 inq.inquiryId = Except.ok (s3, ev3) ∧
      InquiryService.GetData s3 inq.inquiryId =
        Except.ok { inq with price := p, state := InquiryState.REJECTED }) ∧
    (lookupKey s.dataStore badId = none →
      InquiryService.SendQuote s badId p =
        Except.error (ServiceError.notFound ("Inquiry not found for ID: " ++ badId)) ∧
      InquiryService.RejectInquiry s badId =
        Except.error (ServiceError.notFound ("Inquiry not found for ID: " ++ badId))) := by
  constructor
  · refine ⟨⟨insertKey (insertKey s.dataStore inq.inquiryId inq) inq.inquiryId
        { inq with price := p, state := InquiryState.QUOTED }, s.listeners⟩,
      s.listeners.map (fun l => (l, CallbackKind.processUpdate)),
      ⟨insertKey (insertKey (insertKey s.dataStore inq.inquiryId inq) inq.inquiryId
          { inq with price := p, state := InquiryState.QUOTED }) inq.inquiryId
        { inq with price := p, state := InquiryState.REJECTED }, s.listeners⟩,
      s.listeners.map (fun l => (l, CallbackKind.processUpdate)), ?_, ?_, ?_, ?_⟩
    · simp [InquiryService.OnMessage, InquiryService.SendQuote, lookupKey_insertKey_self]
    · simp [InquiryService.GetData, findGetData, lookupKey_insertKey_self]
    · simp [InquiryService.RejectInquiry, lookupKey_insertKey_self]
    · simp [InquiryService.GetData, findGetData, lookupKey_insertKey_self]
  · intro hnone
    exact ⟨by simp [InquiryService.SendQuote, hnone],
      by simp [InquiryService.RejectInquiry, hnone]⟩

def inqW : Inquiry := ⟨"I1", prodA, Side.BUY, 100, 0, InquiryState.RECEIVED⟩

/-- Concrete run of C9: ingest I1 at RECEIVED, quote at 100.25, then reject. -/
theorem c9_witness :
    (∃ s2 ev2 s3 ev3,
      InquiryService.SendQuote
          (InquiryService.OnMessage (⟨[], []⟩ : InquiryServiceState) inqW).1
          inqW.inquiryId (401/4) =
        Except.ok (s2, ev2) ∧
      InquiryService.GetData s2 inqW.inquiryId =
        Except.ok { inqW with price := 401/4, state := InquiryState.QUOTED } ∧
      InquiryService.RejectInquiry s2 inqW.inquiryId = Except.ok (s3, ev3) ∧
      InquiryService.GetData s3 inqW.inquiryId =
        Except.ok { inqW with price := 401/4, state := InquiryState.REJECTED }) ∧
    (InquiryService.SendQuote (⟨[], []⟩ : InquiryServiceState) "no-such-id" (401/4) =
        Except.error (ServiceError.notFound ("Inquiry not found for ID: " ++ "no-such-id")) ∧
      InquiryService.RejectInquiry (⟨[], []⟩ : InquiryServiceState) "no-such-id" =
        Except.error
          (ServiceError.notFound ("Inquiry not found for ID: " ++ "no-such-id"))) :=
  ⟨(c9_inquiry_lifecycle ⟨[], []⟩ inqW (401/4) "no-such-id").1,
   (c9_inquiry_lifecycle ⟨[], []⟩ inqW (401/4) "no-such-id").2 rfl⟩

end SOA
